import Mathlib

set_option maxRecDepth 10000

/-!
Verification of the filenav module `common.py` against its specification.

Shallow embedding: the module's pure logic is translated into Lean
functions; filesystem access (`os.path.realpath`, `os.path.isdir`,
`os.stat`, `os.listdir`) is modelled by an explicit environment `FS`;
Python exceptions are modelled with `Except` and `Option`.
-/

/- ## Python primitives used by `common.py` -/

/-- Association-list model of a Python `dict` lookup (`d.get(k)`); keys are
unique in a `dict`, so first match wins. `(py_dict_get d k).isSome` models
`k in d`. -/
def py_dict_get {τ : Type} : List (String × τ) → String → Option τ
  | [], _ => none
  | (k', v) :: rest, k => if k' = k then some v else py_dict_get rest k

/-- Index of the last occurrence of `c` in `cs` (Python `str.rfind`),
`none` when `c` is absent. -/
def rfind_char (cs : List Char) (c : Char) : Option Nat :=
  (List.range cs.length).foldl
    (fun acc j => if cs.getD j ' ' = c then some j else acc) none

/-- Python `os.path.split` (posixpath): split after the last slash; the head
has trailing slashes stripped unless it consists only of slashes. -/
def py_split (p : String) : String × String :=
  let cs := p.data
  let i := match rfind_char cs '/' with
    | some j => j + 1
    | none => 0
  let head := cs.take i
  let tail := cs.drop i
  let head := if !head.isEmpty && head.any (fun c => c != '/')
    then (head.reverse.dropWhile (fun c => c = '/')).reverse
    else head
  (String.mk head, String.mk tail)

/-- Python `os.path.join(a, b)` (posixpath, one extra component). -/
def py_join (a b : String) : String :=
  if b.data.head? = some '/' then b
  else if a = "" ∨ a.data.getLast? = some '/' then a ++ b
  else a ++ "/" ++ b

/-- Python `s.split(sep)` for a single-character separator, on char lists:
always returns at least one (possibly empty) piece. -/
def split_char : List Char → Char → List (List Char)
  | [], _ => [[]]
  | c :: rest, sep =>
    match split_char rest sep with
    | [] => [[c]]
    | h :: t => if c = sep then [] :: h :: t else (c :: h) :: t

/-- Python `s.lower()`, restricted to ASCII as Lean's `Char.toLower` is;
the filenames and table keys of interest are ASCII. -/
def py_lower (s : String) : String :=
  String.mk (s.data.map Char.toLower)

/-- Python `name.lower().split(os.extsep)` with `os.extsep = "."`. -/
def py_nameparts (name : String) : List String :=
  (split_char (py_lower name).data '.').map String.mk

/-- Python `s.rsplit(".", 1)[0]`: everything before the last dot, or the
whole string when it has no dot. -/
def py_rsplit_head (s : String) : String :=
  match rfind_char s.data '.' with
  | none => s
  | some i => String.mk (s.data.take i)

/-- Python `del l[i]`: `none` models the `IndexError` raised when `i` is out
of range (negative indices are not modelled). -/
def py_list_del {α : Type} (l : List α) (i : Nat) : Option (List α) :=
  if i < l.length then some (l.take i ++ l.drop (i + 1)) else none

/-- Python `l.pop(i)`: the removed element and the remaining list; `none`
models the `IndexError` raised when `i` is out of range. -/
def py_list_pop {α : Type} (l : List α) (i : Nat) : Option (α × List α) :=
  match l[i]? with
  | some x => some (x, l.take i ++ l.drop (i + 1))
  | none => none

/-- Python `l.insert(i, x)`: inserts before index `i`, clamping `i` to the
list length (`insert` never raises). -/
def py_list_insert {α : Type} (l : List α) (i : Nat) (x : α) : List α :=
  l.take i ++ x :: l.drop i

/- ## The `filenav.filetypes` tables -/

/-- Modelled from the spec: the `filenav.filetypes` module ("File type names
and mappings", "a lookup table mapping file extensions to
descriptions/icons") is not among the sources; only its use in `common.py`
is. The three tables are kept abstract as a parameter: `TYPE_GROUPS` maps a
file extension to a type-group name, `FILE_EXTS` maps an extension to an
optional description (the value `None` is allowed, as `common.py` line 174
special-cases it), and `GROUP_ICONS` maps a group name to a
(description, icon) pair; it is modelled as a total function because
`common.py` indexes it only at keys assumed present. -/
structure FileTypes where
  TYPE_GROUPS : List (String × String)
  FILE_EXTS : List (String × Option String)
  GROUP_ICONS : String → String × String

/- ## File metadata -/

/-- The `FileInfo` namedtuple of `common.py`. -/
structure FileInfo where
  dir : String
  name : String
  nameparts : List String
  ext : Option String
  group : String
  desc : String
  icon : String
deriving DecidableEq

/-- The name-derived fields of `get_fileinfo`
(nameparts, ext, group, desc, icon), computed exactly as in the source:
`isdir` is the value of `os.path.isdir(path)` and `name` the tail of
`os.path.split(path)`. Python `if ext:` is false both for `None` and for
the empty string, hence the extra `e = ""` test. -/
def fileinfo_fields (tbl : FileTypes) (isdir : Bool) (name : String) :
    List String × Option String × String × String × String :=
  let nameparts := py_nameparts name
  let ext : Option String :=
    nameparts.foldl
      (fun acc part =>
        if (py_dict_get tbl.TYPE_GROUPS part).isSome then some part else acc)
      none
  let basegroup := if isdir then "folder" else "file"
  let gi0 := tbl.GROUP_ICONS basegroup
  let (group, desc, icon) :=
    match ext with
    | some e =>
      if e = "" then (basegroup, gi0.1, gi0.2)
      else
        let group := (py_dict_get tbl.TYPE_GROUPS e).getD basegroup
        let desc : Option String :=
          match py_dict_get tbl.FILE_EXTS e with
          | some v => v
          | none => some (tbl.GROUP_ICONS group).1
        let icon := (tbl.GROUP_ICONS group).2
        let desc :=
          match desc with
          | none => (tbl.GROUP_ICONS basegroup).1
          | some d => d
        (group, desc, icon)
    | none => (basegroup, gi0.1, gi0.2)
  let (desc, icon) :=
    if basegroup = "folder" ∧
        ¬(ext = some "app" ∨ ext = some "bundle" ∨ ext = some "git")
    then tbl.GROUP_ICONS basegroup
    else (desc, icon)
  (nameparts, ext, group, desc, icon)

/-- Body of `get_fileinfo` after `os.path.split`: the `dir` and `name`
halves of the split plus the name-derived fields. -/
def get_fileinfo_split (tbl : FileTypes) (isdir : Bool) (dir name : String) :
    FileInfo :=
  let (nameparts, ext, group, desc, icon) := fileinfo_fields tbl isdir name
  ⟨dir, name, nameparts, ext, group, desc, icon⟩

/-- `get_fileinfo(path)` from `common.py`; the filesystem-dependent
`os.path.isdir(path)` test is passed in as `isdir`. -/
def get_fileinfo (tbl : FileTypes) (isdir : Bool) (path : String) : FileInfo :=
  get_fileinfo_split tbl isdir (py_split path).1 (py_split path).2

/-- A sample instance of the spec-modelled `filetypes` tables, used to
evaluate the definitions at concrete inputs. -/
def sampleTypes : FileTypes where
  TYPE_GROUPS := [("png", "image"), ("py", "code"), ("htm", "code_tags"),
    ("html", "code_tags"), ("txt", "text"), ("wav", "audio"), ("app", "app")]
  FILE_EXTS := [("png", some "Portable Network Graphics"),
    ("py", some "Python Script"), ("htm", some "HTML File"),
    ("html", some "HTML File"), ("txt", some "Plain Text"),
    ("wav", some "Waveform Audio"), ("app", none)]
  GROUP_ICONS := fun g =>
    if g = "folder" then ("Folder", "ionicons-folder-32")
    else if g = "image" then ("Image File", "ionicons-image-32")
    else if g = "code" then ("Code File", "ionicons-code-32")
    else if g = "code_tags" then ("Markup File", "ionicons-code-32")
    else if g = "text" then ("Text File", "ionicons-document-text-32")
    else if g = "audio" then ("Audio File", "ionicons-volume-medium-32")
    else if g = "app" then ("Application", "ionicons-cube-32")
    else ("File", "ionicons-document-32")

/- ## Size formatting -/

/-- `SIZE_SUFFIXES = u"bytes KiB MiB GiB TiB PiB EiB ZiB YiB".split()`. -/
def SIZE_SUFFIXES : List String :=
  ["bytes", "KiB", "MiB", "GiB", "TiB", "PiB", "EiB", "ZiB", "YiB"]

/-- Python `"{size:02.2f}".format(...)` applied to the exact value
`num / den` with `den > 0`: round to two decimal places, ties to even (the
rounding CPython uses when formatting a float). The minimum field width 2
is always exceeded, so it never pads. -/
def py_format_2f (num den : ℕ) : String :=
  let a := num * 100
  let q := a / den
  let r := a % den
  let n := if 2 * r < den then q
    else if den < 2 * r then q + 1
    else if q % 2 = 0 then q else q + 1
  toString (n / 100) ++ "." ++
    (if n % 100 < 10 then "0" else "") ++ toString (n % 100)

/-- Python `float(n)` for a nonnegative `int`: the IEEE-754 double nearest
to `n` (53 significant bits, ties to even), returned as the exact natural
number it represents; `none` models the `OverflowError` raised when the
rounded value would reach `2^1024`. Exact (`some n`) below `2^53`. -/
def py_float (n : ℕ) : Option ℕ :=
  if n < 2 ^ 53 then some n
  else if 2 ^ 1024 - 2 ^ 970 ≤ n then none
  else
    let b := Nat.findGreatest (fun b => 2 ^ b ≤ n) 1024 + 1
    let e := b - 53
    let m := n / 2 ^ e
    let r := n % 2 ^ e
    let m' := if 2 * r < 2 ^ e then m
      else if 2 ^ e < 2 * r then m + 1
      else if m % 2 = 0 then m else m + 1
    some (m' * 2 ^ e)

/-- The `for suffix in SIZE_SUFFIXES[1:]: size /= 1024.0; if size < 1024.0:
break` loop of `format_size`, and the suffix variable left behind when the
loop ends (by `break` or by running off the end of the list). Dividing a
double by 1024 only decrements its exponent, so after `j` divisions the
loop's float value is exactly `m / 1024^j` where `m` is the value of
`float(size)`; the embedding therefore carries the exponent: `k` counts the
divisions made so far, the current value is `m / 1024^k`, and the final
exponent is returned with the suffix. -/
def size_loop (m k : ℕ) : List String → ℕ × String
  | [] => (k, "")
  | [s] => (k + 1, s)
  | s :: s' :: rest =>
    if m < 1024 ^ (k + 2) then (k + 1, s)
    else size_loop m (k + 1) (s' :: rest)

/-- `format_size(size, longf=True)` from `common.py`; `none` models the
`OverflowError` that `float(size)` raises for huge sizes. `bsize`, shown in
the parenthesis, is the original integer. -/
def format_size (size : ℕ) (longf : Bool := true) : Option String :=
  if size < 1024 then some (toString size ++ " bytes")
  else
    match py_float size with
    | none => none
    | some m =>
      let (k, suffix) := size_loop m 0 (SIZE_SUFFIXES.drop 1)
      let core := py_format_2f m (1024 ^ k) ++ " " ++ suffix
      some (if longf then core ++ " (" ++ toString size ++ " bytes)" else core)

/- ## The filesystem environment and `FileItem` -/

/-- A Python `OSError`: its `errno`, `strerror` and `filename` attributes. -/
structure OSErr where
  errno : ℕ
  strerror : String
  filename : Option String
deriving DecidableEq

/-- `errno.ENOTDIR`. -/
def errno_ENOTDIR : ℕ := 20

/-- `os.strerror` at the codes the module uses. -/
def os_strerror (n : ℕ) : String :=
  if n = 20 then "Not a directory" else "Unknown error " ++ toString n

/-- The part of an `os.stat` result the module stores. -/
structure StatRes where
  st_size : ℕ
  st_mode : ℕ
deriving DecidableEq

/-- The filesystem environment: one consistent snapshot of the host calls
`common.py` makes. `full_path` models
`os.path.realpath(os.path.expandvars(os.path.expanduser(path)))`;
`rel_to_docs`/`rel_to_app` model the `os.path.relpath` wrappers of the
module (their anchors are fixed host directories). `stat` and `listdir`
return `Except` to model the `OSError` they can raise; `os.path.isdir`
returns `False` on error, so it is total. -/
structure FS where
  full_path : String → String
  isdir : String → Bool
  stat : String → Except OSErr StatRes
  listdir : String → Except OSErr (List String)
  rel_to_docs : String → String
  rel_to_app : String → String

/-- The mutable state of a `FileItem` instance (the fields `reload` sets;
`self.path` is set by `__new__` before `reload` runs). -/
structure FileItem where
  path : String
  constants : FileInfo
  icon : String
  icon_cached : Bool
  stat : Option StatRes
  basetype : ℕ
  contents : Option (List String)
deriving DecidableEq

/-- `FileItem.reload` from `common.py`: recompute every non-constant field
from the filesystem; the two `try/except OSError` blocks become matches on
the `Except` results, so no error ever escapes. -/
def FileItem.reload (fs : FS) (tbl : FileTypes) (path : String) : FileItem :=
  let constants := get_fileinfo tbl (fs.isdir path) path
  { path := path
    constants := constants
    icon := constants.icon
    icon_cached := false
    stat :=
      match fs.stat path with
      | .ok s => some s
      | .error _ => none
    basetype := if fs.isdir path then 0 else 1
    contents :=
      if fs.isdir path then
        some (match fs.listdir path with
          | .ok l => l
          | .error _ => [])
      else none }

/-- The argument of `FileItem.__new__`: a path string or an existing
`FileItem` (Python's dynamic `isinstance(path, FileItem)` test becomes a
sum type). -/
inductive PathArg where
  | str (s : String)
  | item (fi : FileItem)
deriving DecidableEq

/-- `FileItem.__new__`: an existing `FileItem` is returned as-is (object
identity is modelled as structural equality); a path is canonicalized with
`full_path` and a fresh item is built by `reload`. The `cls` argument of
the source is unused in the item branch and Python subclassing is outside
the embedding. -/
def FileItem.new (fs : FS) (tbl : FileTypes) : PathArg → FileItem
  | .item fi => fi
  | .str p => FileItem.reload fs tbl (fs.full_path p)

/-- `FileItem.isdir`. -/
def FileItem.isdir (fi : FileItem) : Bool := fi.basetype = 0

/-- `FileItem.isfile`. -/
def FileItem.isfile (fi : FileItem) : Bool := fi.basetype = 1

/-- `FileItem.listdir`: the cached contents for a directory, otherwise an
`ENOTDIR` `OSError` built exactly as in the source. The method mutates
nothing; the embedding returns the (unchanged) item alongside the result so
that this is a statement, not a convention. -/
def FileItem.listdir (fi : FileItem) :
    Except OSErr (Option (List String)) × FileItem :=
  if fi.isdir then (.ok fi.contents, fi)
  else
    (.error ⟨errno_ENOTDIR, os_strerror errno_ENOTDIR, some fi.path⟩, fi)

/- ## The favorites list data source -/

/-- The persisted JSON files, keyed by path. `common.py` reads and writes a
favorites file as a flat JSON array of `[path, label]` pairs
(`json.load` / `json.dump(..., indent=4)`); the embedding stores that array
as the list of its pairs, leaving the JSON text encoding outside the
model. A write shadows earlier writes to the same path. -/
abbrev JsonStore : Type := List (String × List (String × String))

/-- `json.dump(entries, f)` to `path`. -/
def json_write (files : JsonStore) (path : String)
    (entries : List (String × String)) : JsonStore :=
  (path, entries) :: files

/-- `json.load` from `path` (`none`: no such file). -/
def json_read (files : JsonStore) (path : String) :
    Option (List (String × String)) :=
  py_dict_get files path

/-- UI side effects the favorites data source performs on its table view. -/
inductive UIEffect where
  | delete_rows (rows : List ℕ)
deriving DecidableEq

/-- `FavoritesDataSource` state: the favorites file path (`self.src`) and
the loaded entries (`self.entries`). -/
structure FavoritesDataSource where
  src : String
  entries : List (String × String)
deriving DecidableEq

/-- `FavoritesDataSource.tableview_delete`: `del self.entries[row]`, tell
the table view, and dump the updated list back to `self.src`; `none` models
the `IndexError` of an out-of-range row (the UI only passes valid rows). -/
def FavoritesDataSource.tableview_delete (s : FavoritesDataSource)
    (files : JsonStore) (row : ℕ) :
    Option (FavoritesDataSource × JsonStore × List UIEffect) :=
  match py_list_del s.entries row with
  | none => none
  | some entries' =>
    some ({ s with entries := entries' },
      json_write files s.src entries', [.delete_rows [row]])

/-- `FavoritesDataSource.tableview_move_row`:
`self.entries.insert(to_row, self.entries.pop(from_row))`, then dump the
reordered list back to `self.src`; `none` models the `IndexError` of an
out-of-range `from_row`. -/
def FavoritesDataSource.tableview_move_row (s : FavoritesDataSource)
    (files : JsonStore) (from_row to_row : ℕ) :
    Option (FavoritesDataSource × JsonStore) :=
  match py_list_pop s.entries from_row with
  | none => none
  | some (x, rest) =>
    let entries' := py_list_insert rest to_row x
    some ({ s with entries := entries' }, json_write files s.src entries')

/- ## The directory listing data source -/

/-- `FileDataSource` state after `reload`: the directory's `FileItem` and
the two row lists. `self.lists = [self.folders, self.files]`. -/
structure FileDataSource where
  fi : FileItem
  folders : List FileItem
  files : List FileItem
deriving DecidableEq

/-- `FileDataSource.reload`: walk `self.fi.contents`, convert each name to
a `FileItem` of the joined path, and partition into `folders` and `files`
by `isdir()`. The source also caches the converted `FileItem`s back into
`self.fi.contents`; the embedding recomputes that list (`FileItem`
conversion of a `FileItem` is the identity, so reconversion is harmless).
A `FileItem` with `contents = none` (a non-directory) would raise a
`TypeError` in the source's `enumerate`; `FileDataSource` is only built on
directories, and the embedding maps the `none` case to the empty listing. -/
def FileDataSource.reload (fs : FS) (tbl : FileTypes) (fi : FileItem) :
    FileDataSource :=
  let cs := (fi.contents.getD []).map
    (fun name => FileItem.new fs tbl (.str (py_join fi.path name)))
  { fi := fi
    folders := cs.filter (fun x => x.isdir)
    files := cs.filter (fun x => !x.isdir) }

/-- `self.lists = [self.folders, self.files]`. -/
def FileDataSource.lists (d : FileDataSource) : List (List FileItem) :=
  [d.folders, d.files]

/-- `FileDataSource.tableview_number_of_rows`; an out-of-range section
(the UI passes only 0 and 1) is read as an empty list. `sec` is the
source's `section` argument (a Lean keyword). -/
def FileDataSource.tableview_number_of_rows (d : FileDataSource)
    (sec : ℕ) : ℕ :=
  (d.lists.getD sec []).length

/- ## Row-selection dispatch of the directory listing -/

/-- The host actions `FileDataSource.tableview_did_select` can perform,
in the order the handler emits them. -/
inductive Effect where
  | console_show_activity
  | console_hide_activity
  | push_file_list (path : String)
  | webbrowser_open (url : String)
  | app_close
  | editor_open_file (path : String)
  | console_hide_output
  | sound_load_effect (path : String)
  | sound_play_effect (path : String)
  | console_show_image (path : String)
  | sleep_anim_delay
  | console_quicklook (path : String)
deriving DecidableEq

/-- `FileDataSource.tableview_did_select` from `common.py`, as the list of
host actions it performs; `fi` is the selected row's item
(`self.lists[section][row]`) and `sec` the source's `section` argument. `open_path` is inlined as its two calls
(`editor.open_file(rel_to_docs(path))`, `console.hide_output()`). -/
def fds_did_select (fs : FS) (editing : Bool) (sec : ℕ)
    (fi : FileItem) : List Effect :=
  if editing then []
  else if sec = 0 then
    [.console_show_activity, .push_file_list fi.path, .console_hide_activity]
  else if sec = 1 then
    if fi.constants.ext = some "htm" ∨ fi.constants.ext = some "html" then
      [.webbrowser_open ("file://" ++ fi.path), .app_close]
    else if fi.constants.group = "code" ∨ fi.constants.group = "code_tags"
        ∨ fi.constants.group = "text" then
      [.editor_open_file (fs.rel_to_docs fi.path), .console_hide_output,
        .app_close]
    else if fi.constants.group = "audio" then
      [.sound_load_effect (fs.rel_to_app (py_rsplit_head fi.path)),
        .sound_play_effect (fs.rel_to_app (py_rsplit_head fi.path))]
    else if fi.constants.group = "image" then
      [.console_show_image fi.path]
    else
      [.app_close, .sleep_anim_delay, .console_quicklook fi.path]
  else []

/-- The five dispatch outcomes for a file row (section 1). -/
inductive FileAction where
  | browser
  | editor
  | audio
  | image
  | quicklook
deriving DecidableEq

/-- The per-file-type dispatch rule as the claim states it: extension
first, then group, in the handler's order of tests. -/
def select_action (ext : Option String) (group : String) : FileAction :=
  if ext = some "htm" ∨ ext = some "html" then .browser
  else if group = "code" ∨ group = "code_tags" ∨ group = "text" then .editor
  else if group = "audio" then .audio
  else if group = "image" then .image
  else .quicklook

/-- The host-action sequence belonging to each dispatch outcome. -/
def action_effects (fs : FS) (fi : FileItem) : FileAction → List Effect
  | .browser => [.webbrowser_open ("file://" ++ fi.path), .app_close]
  | .editor => [.editor_open_file (fs.rel_to_docs fi.path),
      .console_hide_output, .app_close]
  | .audio => [.sound_load_effect (fs.rel_to_app (py_rsplit_head fi.path)),
      .sound_play_effect (fs.rel_to_app (py_rsplit_head fi.path))]
  | .image => [.console_show_image fi.path]
  | .quicklook => [.app_close, .sleep_anim_delay, .console_quicklook fi.path]

/- ## Concrete environments for evaluating the model -/

/-- A filesystem in which every path is a directory and both `stat` and
`listdir` fail with `EACCES`. -/
def fs_err : FS where
  full_path := id
  isdir := fun _ => true
  stat := fun p => .error ⟨13, "Permission denied", some p⟩
  listdir := fun p => .error ⟨13, "Permission denied", some p⟩
  rel_to_docs := id
  rel_to_app := id

/-- A filesystem with one directory `/r` containing a subdirectory `d1`
and a file `f1.png`. -/
def fs_tree : FS where
  full_path := id
  isdir := fun p => p == "/r" || p == "/r/d1"
  stat := fun _ => .ok ⟨4096, 493⟩
  listdir := fun p => if p = "/r" then .ok ["d1", "f1.png"]
    else .error ⟨2, "No such file or directory", some p⟩
  rel_to_docs := id
  rel_to_app := id

/-- A filesystem in which `a/x` is a directory while `b/x` is not. -/
def fs_mixed : FS where
  full_path := id
  isdir := fun p => p == "a/x"
  stat := fun _ => .ok ⟨0, 420⟩
  listdir := fun _ => .ok []
  rel_to_docs := id
  rel_to_app := id

/- ## Sanity evaluations of the embedding -/

/-- Sanity evaluations of the path-splitting model against CPython
`posixpath.split`. -/
theorem py_split_eval :
    py_split "a/x" = ("a", "x")
    ∧ py_split "pics.png" = ("", "pics.png")
    ∧ py_split "/x" = ("/", "x")
    ∧ py_split "a//b/" = ("a//b", "") := by
  refine ⟨?_, ?_, ?_, ?_⟩ <;> decide

/-- Sanity evaluations of `get_fileinfo` over the sample tables: uppercase
extensions are matched lowercased, and files get the table description. -/
theorem get_fileinfo_eval :
    (get_fileinfo sampleTypes false "d/photo.PNG").ext = some "png"
    ∧ (get_fileinfo sampleTypes false "d/photo.png").desc
        = "Portable Network Graphics" := by
  refine ⟨?_, ?_⟩ <;> decide

/-- Sanity evaluations of `format_size` against the CPython behavior. -/
theorem format_size_eval :
    format_size 500 = some "500 bytes"
    ∧ format_size 2048 = some "2.00 KiB (2048 bytes)"
    ∧ format_size 1536 false = some "1.50 KiB"
    ∧ format_size 1048576 false = some "1.00 MiB"
    ∧ format_size (1024 ^ 3 - 1) false = some "1024.00 MiB" := by
  refine ⟨?_, ?_, ?_, ?_, ?_⟩ <;> decide

/- ## Helper lemmas -/

/-- The extension-search loop of `get_fileinfo` returns the last namepart
that is a key of `TYPE_GROUPS`; in particular, when the final namepart is
a key, it wins. -/
theorem find_ext_last (tbl : FileTypes) (parts : List String) (lp : String)
    (h : parts.getLast? = some lp)
    (hk : (py_dict_get tbl.TYPE_GROUPS lp).isSome) :
    parts.foldl
      (fun acc part =>
        if (py_dict_get tbl.TYPE_GROUPS part).isSome then some part else acc)
      none = some lp := by
  have hne : parts ≠ [] := by
    rintro rfl
    simp at h
  have hl : parts.getLast hne = lp := by
    rw [List.getLast?_eq_getLast parts hne] at h
    exact Option.some_injective _ h
  have hsplit : parts = parts.dropLast ++ [lp] := by
    rw [← hl]
    exact (List.dropLast_append_getLast hne).symm
  conv_lhs => rw [hsplit]
  rw [List.foldl_append]
  simp [hk]

/-- `action_effects` is injective in the action: the five effect sequences
are pairwise distinct. -/
theorem action_effects_inj (fs : FS) (fi : FileItem) (a a' : FileAction)
    (h : action_effects fs fi a = action_effects fs fi a') : a = a' := by
  cases a <;> cases a' <;> first
    | rfl
    | (exfalso; simp [action_effects] at h)

/-- Python `l.insert(i, x)` permutes `x :: l`. -/
theorem py_list_insert_perm {α : Type} (l : List α) (i : ℕ) (x : α) :
    (py_list_insert l i x).Perm (x :: l) := by
  have h := @List.perm_middle _ x (l.take i) (l.drop i)
  rwa [List.take_append_drop] at h

/-- Removing the row at the insertion index undoes a Python `insert`. -/
theorem py_list_insert_eraseIdx {α : Type} (l : List α) (i : ℕ) (x : α)
    (h : i ≤ l.length) :
    (py_list_insert l i x).eraseIdx i = l := by
  unfold py_list_insert
  rw [List.eraseIdx_eq_take_drop_succ]
  have hlen : (l.take i).length = i := by
    rw [List.length_take]
    omega
  have hass : l.take i ++ x :: l.drop i = (l.take i ++ [x]) ++ l.drop i := by
    simp
  have hlen2 : (l.take i ++ [x]).length = i + 1 := by simp [hlen]
  rw [List.take_left' hlen, hass, List.drop_left' hlen2,
    List.take_append_drop]

/-- Putting the removed element back in front of an `eraseIdx` result
permutes the original list. -/
theorem cons_eraseIdx_perm {α : Type} (l : List α) (i : ℕ) (h : i < l.length)
    (d : α) : (l.getD i d :: l.eraseIdx i).Perm l := by
  rw [List.getD_eq_getElem l d h, List.eraseIdx_eq_take_drop_succ]
  have hid : l.take i ++ l[i] :: l.drop (i + 1) = l := by
    rw [List.getElem_cons_drop l i h, List.take_append_drop]
  have hp :=
    (@List.perm_middle _ (l[i]) (l.take i) (l.drop (i + 1))).symm
  rwa [hid] at hp

/- ## C3: per-file-type dispatch on selecting a file row -/

/-- C3: selecting a file row (section 1, not editing) dispatches on the
file's extension and group, in the handler's order of tests — extension
`htm`/`html` to the web browser, group `code`/`code_tags`/`text` to the
editor, `audio` to the sound player, `image` to the console preview, and
everything else to quicklook — and the emitted host-action sequence is
that of exactly one of the five actions. -/
theorem fds_did_select_dispatch (fs : FS) (fi : FileItem) :
    fds_did_select fs false 1 fi
        = action_effects fs fi (select_action fi.constants.ext fi.constants.group)
      ∧ ∃! a : FileAction,
          fds_did_select fs false 1 fi = action_effects fs fi a := by
  have hmain : fds_did_select fs false 1 fi
      = action_effects fs fi
          (select_action fi.constants.ext fi.constants.group) := by
    unfold fds_did_select select_action
    simp only [Bool.false_eq_true, if_false, one_ne_zero, if_neg, if_pos]
    split_ifs <;> rfl
  refine ⟨hmain, select_action fi.constants.ext fi.constants.group, hmain, ?_⟩
  intro a ha
  exact action_effects_inj fs fi a _ (ha.symm.trans hmain)

/-- Witness for C3 at a concrete selection: an `html` file goes to the
browser even though its group would also match the editor rule. -/
theorem fds_did_select_dispatch_witness :
    fds_did_select fs_tree false 1
        (FileItem.reload fs_tree sampleTypes "/r/page.html")
      = action_effects fs_tree (FileItem.reload fs_tree sampleTypes "/r/page.html")
          (select_action
            (FileItem.reload fs_tree sampleTypes "/r/page.html").constants.ext
            (FileItem.reload fs_tree sampleTypes "/r/page.html").constants.group) :=
  (fds_did_select_dispatch fs_tree
    (FileItem.reload fs_tree sampleTypes "/r/page.html")).1

/- ## C4: file metadata is determined by the final name component -/

/-- C4 counterexample: the claim says the non-`dir` fields of the
`FileInfo` are computed from the filename alone, but `get_fileinfo`
also consults `os.path.isdir`: in a filesystem where `a/x` is a directory
and `b/x` a file, the two paths share their final name component yet get
different descriptions. -/
theorem fileinfo_filename_only_cex :
    (py_split "a/x").2 = (py_split "b/x").2
    ∧ (get_fileinfo sampleTypes (fs_mixed.isdir "a/x") "a/x").desc
        ≠ (get_fileinfo sampleTypes (fs_mixed.isdir "b/x") "b/x").desc := by
  constructor
  · decide
  · decide

/-- C4 (amended): the non-`dir` fields of `get_fileinfo` are determined by
the final filename component together with the `os.path.isdir` result —
for two paths with equal final components and equal directory status, the
`name`, `nameparts`, `ext`, `group`, `desc` and `icon` fields coincide. -/
theorem fileinfo_filename_isdir_determined (tbl : FileTypes) (isdir : Bool)
    (p1 p2 : String) (h : (py_split p1).2 = (py_split p2).2) :
    (get_fileinfo tbl isdir p1).name = (get_fileinfo tbl isdir p2).name
    ∧ (get_fileinfo tbl isdir p1).nameparts
        = (get_fileinfo tbl isdir p2).nameparts
    ∧ (get_fileinfo tbl isdir p1).ext = (get_fileinfo tbl isdir p2).ext
    ∧ (get_fileinfo tbl isdir p1).group = (get_fileinfo tbl isdir p2).group
    ∧ (get_fileinfo tbl isdir p1).desc = (get_fileinfo tbl isdir p2).desc
    ∧ (get_fileinfo tbl isdir p1).icon = (get_fileinfo tbl isdir p2).icon := by
  unfold get_fileinfo get_fileinfo_split
  rw [h]
  rcases hf : fileinfo_fields tbl isdir (py_split p2).2 with ⟨np, e, g, dc, ic⟩
  simp [hf]

/-- Witness for C4 (amended) at two concrete file paths sharing the final
component `photo.png`. -/
theorem fileinfo_filename_isdir_determined_witness :
    (py_split "a/photo.png").2 = (py_split "b/photo.png").2
    ∧ (get_fileinfo sampleTypes false "a/photo.png").desc
        = (get_fileinfo sampleTypes false "b/photo.png").desc :=
  ⟨by decide,
    (fileinfo_filename_isdir_determined sampleTypes false
      "a/photo.png" "b/photo.png" (by decide)).2.2.2.2.1⟩

/- ## C7: `FileItem.reload` swallows every `OSError` -/

/-- C7: `reload` never propagates an `OSError`: a failing `os.stat` leaves
`stat = None`, a failing `os.listdir` on a directory leaves
`contents = []`, and every other field is set normally in all cases. -/
theorem fileitem_reload_total_spec (fs : FS) (tbl : FileTypes) (p : String)
    (e : OSErr) (st : StatRes) (l : List String) :
    (fs.stat p = .error e → (FileItem.reload fs tbl p).stat = none)
    ∧ (fs.stat p = .ok st → (FileItem.reload fs tbl p).stat = some st)
    ∧ (fs.isdir p = true → fs.listdir p = .error e →
        (FileItem.reload fs tbl p).contents = some [])
    ∧ (fs.isdir p = true → fs.listdir p = .ok l →
        (FileItem.reload fs tbl p).contents = some l)
    ∧ (fs.isdir p = false → (FileItem.reload fs tbl p).contents = none)
    ∧ (FileItem.reload fs tbl p).path = p
    ∧ (FileItem.reload fs tbl p).constants = get_fileinfo tbl (fs.isdir p) p
    ∧ (FileItem.reload fs tbl p).icon = (get_fileinfo tbl (fs.isdir p) p).icon
    ∧ (FileItem.reload fs tbl p).icon_cached = false
    ∧ (FileItem.reload fs tbl p).basetype = (if fs.isdir p then 0 else 1) := by
  refine ⟨?_, ?_, ?_, ?_, ?_, rfl, rfl, rfl, rfl, rfl⟩
  · intro h
    simp [FileItem.reload, h]
  · intro h
    simp [FileItem.reload, h]
  · intro hd h
    simp [FileItem.reload, hd, h]
  · intro hd h
    simp [FileItem.reload, hd, h]
  · intro hd
    simp [FileItem.reload, hd]

/-- Witness for C7 in the all-errors filesystem: both `OSError`s are
swallowed. -/
theorem fileitem_reload_total_spec_witness :
    (FileItem.reload fs_err sampleTypes "/p").stat = none
    ∧ (FileItem.reload fs_err sampleTypes "/p").contents = some [] :=
  ⟨(fileitem_reload_total_spec fs_err sampleTypes "/p"
      ⟨13, "Permission denied", some "/p"⟩ ⟨0, 0⟩ []).1 rfl,
    (fileitem_reload_total_spec fs_err sampleTypes "/p"
      ⟨13, "Permission denied", some "/p"⟩ ⟨0, 0⟩ []).2.2.1 rfl rfl⟩

/- ## C8: `FileItem.listdir` returns the cache or raises `ENOTDIR` -/

/-- C8: `listdir()` returns the cached contents exactly when the item is a
directory, and otherwise raises an `OSError` with errno `ENOTDIR` and the
item's path as filename; the item itself is never modified. -/
theorem fileitem_listdir_spec (fi : FileItem) :
    (fi.listdir.1 = .ok fi.contents ↔ fi.isdir = true)
    ∧ (fi.listdir.1
        = .error ⟨errno_ENOTDIR, os_strerror errno_ENOTDIR, some fi.path⟩
        ↔ fi.isdir = false)
    ∧ fi.listdir.2 = fi := by
  by_cases h : fi.isdir <;> simp [FileItem.listdir, h]

/-- Witness for C8 on a concrete non-directory item: selecting the raise
branch of the iff. -/
theorem fileitem_listdir_spec_witness :
    (FileItem.mk "/p" ⟨"", "p", ["p"], none, "file", "File", "i"⟩ "i" false
        none 1 none).listdir.1
      = .error ⟨errno_ENOTDIR, os_strerror errno_ENOTDIR, some "/p"⟩ :=
  (fileitem_listdir_spec
    (FileItem.mk "/p" ⟨"", "p", ["p"], none, "file", "File", "i"⟩ "i" false
      none 1 none)).2.1.mpr rfl

/- ## C9: `FileItem` construction from a `FileItem` is the identity -/

/-- C9: `FileItem.__new__` returns an existing `FileItem` argument as-is,
so construction is idempotent: building from the result of a build yields
the very same item. -/
theorem fileitem_new_idempotent (fs : FS) (tbl : FileTypes) (x : FileItem)
    (p : String) :
    FileItem.new fs tbl (.item x) = x
    ∧ FileItem.new fs tbl (.item (FileItem.new fs tbl (.str p)))
        = FileItem.new fs tbl (.str p) :=
  ⟨rfl, rfl⟩

/-- Float conversion is exact below `2^53`. -/
theorem py_float_small (n : ℕ) (h : n < 2 ^ 53) : py_float n = some n := by
  unfold py_float
  rw [if_pos h]

/-- The conversion loop breaks at element `j` when the first `j` scaled
values are still at least 1024 and the value after `j + 1` divisions drops
below 1024. -/
theorem size_loop_break :
    ∀ (l : List String) (m k j : ℕ), j < l.length →
      (∀ i, i < j → 1024 ^ (k + i + 2) ≤ m) → m < 1024 ^ (k + j + 2) →
      size_loop m k l = (k + j + 1, l.getD j "") := by
  intro l
  induction l with
  | nil =>
    intro m k j hj
    simp at hj
  | cons s t ih =>
    intro m k j hj hlow hhigh
    cases j with
    | zero =>
      cases t with
      | nil => simp [size_loop]
      | cons s' r =>
        have hc : m < 1024 ^ (k + 2) := by simpa using hhigh
        simp [size_loop, hc]
    | succ j' =>
      have h0 : 1024 ^ (k + 2) ≤ m := by simpa using hlow 0 (Nat.succ_pos j')
      cases t with
      | nil =>
        simp at hj
      | cons s' r =>
        have hcond : ¬ m < 1024 ^ (k + 2) := not_lt.mpr h0
        simp only [size_loop, if_neg hcond]
        rw [ih m (k + 1) j'
          (by simp only [List.length_cons] at hj ⊢; omega)
          (fun i hi => by
            have hh := hlow (i + 1) (by omega)
            convert hh using 2
            omega)
          (by
            convert hhigh using 2
            omega)]
        have harith : k + 1 + j' + 1 = k + (j' + 1) + 1 := by omega
        rw [harith]
        rfl

/-- The conversion loop runs off the end of the suffix list when every
checked scaled value stays at least 1024; it then reports the value after
one division per list element and the last suffix. -/
theorem size_loop_exhaust :
    ∀ (l : List String) (m k : ℕ), l ≠ [] →
      (∀ i, i + 1 < l.length → 1024 ^ (k + i + 2) ≤ m) →
      size_loop m k l = (k + l.length, l.getLastD "") := by
  intro l
  induction l with
  | nil =>
    intro m k h
    exact absurd rfl h
  | cons s t ih =>
    intro m k _ hlow
    cases t with
    | nil => simp [size_loop]
    | cons s' r =>
      have h0 : 1024 ^ (k + 2) ≤ m := by simpa using hlow 0 (by simp)
      have hcond : ¬ m < 1024 ^ (k + 2) := not_lt.mpr h0
      simp only [size_loop, if_neg hcond]
      rw [ih m (k + 1) (by simp)
        (fun i hi => by
          have hh := hlow (i + 1) (by simp only [List.length_cons] at hi ⊢; omega)
          convert hh using 2
          omega)]
      simp only [List.getLastD_cons, List.length_cons, Prod.mk.injEq]
      exact ⟨by omega, trivial⟩

/- ## C2: `format_size` unit conversion -/

/-- C2 counterexample: at `size = 2^90` there is no unit among the nine at
which the scaled value is below 1024 — even at the largest unit (YiB,
divisor `1024^8`) the scaled value is `1024^9 ≤ 2^90` away from
qualifying — yet `format_size` still returns a YiB string, showing the
scaled value 1024.00. -/
theorem format_size_smallest_unit_cex :
    1024 ^ 9 ≤ 2 ^ 90
    ∧ format_size (2 ^ 90) false = some "1024.00 YiB" := by
  constructor
  · decide
  · decide

/-- C2 (amended): `format_size` scales the double-precision value of
`size` (exact below `2^53`) to the smallest unit at which the scaled value
drops below 1024; when even the YiB value is at least 1024 it falls back
to YiB; a size below 1024 is shown exactly with the suffix `bytes` and no
parenthesis; for sizes whose float conversion overflows the call raises
(returns `none`); otherwise, when `longf` is true, the original byte count
is appended in parentheses. -/
theorem format_size_unit_conversion (size : ℕ) (longf : Bool) :
    (size < 1024 → format_size size longf = some (toString size ++ " bytes"))
    ∧ (∀ m k, 1024 ≤ size → py_float size = some m → 1 ≤ k → k ≤ 8 →
        1024 ^ k ≤ m → m < 1024 ^ (k + 1) →
        format_size size longf
          = some (if longf then
              py_format_2f m (1024 ^ k) ++ " " ++ SIZE_SUFFIXES.getD k ""
                ++ " (" ++ toString size ++ " bytes)"
            else py_format_2f m (1024 ^ k) ++ " " ++ SIZE_SUFFIXES.getD k ""))
    ∧ (∀ m, 1024 ≤ size → py_float size = some m → 1024 ^ 9 ≤ m →
        format_size size longf
          = some (if longf then
              py_format_2f m (1024 ^ 8) ++ " " ++ "YiB"
                ++ " (" ++ toString size ++ " bytes)"
            else py_format_2f m (1024 ^ 8) ++ " " ++ "YiB"))
    ∧ (1024 ≤ size → py_float size = none → format_size size longf = none) := by
  refine ⟨?_, ?_, ?_, ?_⟩
  · intro h
    simp [format_size, h]
  · intro m k h1024 hm hk1 hk8 hlo hhi
    have hnlt : ¬ size < 1024 := not_lt.mpr h1024
    have hloop : size_loop m 0 (SIZE_SUFFIXES.drop 1)
        = (k, SIZE_SUFFIXES.getD k "") := by
      have hb := size_loop_break (SIZE_SUFFIXES.drop 1) m 0 (k - 1)
        (by
          rw [show (SIZE_SUFFIXES.drop 1).length = 8 from rfl]
          omega)
        (fun i hi => by
          refine le_trans (Nat.pow_le_pow_right (by norm_num) ?_) hlo
          omega)
        (by
          rw [show 0 + (k - 1) + 2 = k + 1 from by omega]
          exact hhi)
      rw [hb]
      obtain ⟨k', rfl⟩ : ∃ k', k = k' + 1 := ⟨k - 1, by omega⟩
      rw [show 0 + (k' + 1 - 1) + 1 = k' + 1 from by omega]
      rfl
    simp only [format_size, if_neg hnlt, hm, hloop]
  · intro m h1024 hm hbig
    have hnlt : ¬ size < 1024 := not_lt.mpr h1024
    have hloop : size_loop m 0 (SIZE_SUFFIXES.drop 1) = (8, "YiB") := by
      have hb := size_loop_exhaust (SIZE_SUFFIXES.drop 1) m 0 (by decide)
        (fun i hi => by
          rw [show (SIZE_SUFFIXES.drop 1).length = 8 from rfl] at hi
          refine le_trans (Nat.pow_le_pow_right (by norm_num) ?_) hbig
          omega)
      rw [hb]
      rfl
    simp only [format_size, if_neg hnlt, hm, hloop]
  · intro h1024 hnone
    have hnlt : ¬ size < 1024 := not_lt.mpr h1024
    simp [format_size, if_neg hnlt, hnone]

/-- Witness for C2 (amended): 2048 bytes format as 2.00 KiB with the long
parenthesis. -/
theorem format_size_unit_conversion_witness :
    py_float 2048 = some 2048
    ∧ format_size 2048 true
      = some (if true then
          py_format_2f 2048 (1024 ^ 1) ++ " " ++ SIZE_SUFFIXES.getD 1 ""
            ++ " (" ++ toString 2048 ++ " bytes)"
        else py_format_2f 2048 (1024 ^ 1) ++ " " ++ SIZE_SUFFIXES.getD 1 "") :=
  ⟨py_float_small 2048 (by decide),
    (format_size_unit_conversion 2048 true).2.1 2048 1 (by decide)
      (py_float_small 2048 (by decide)) (by decide) (by decide) (by decide)
      (by decide)⟩

/- ## C1: extension lookup in `get_fileinfo` -/

/-- C1 counterexample: for a directory whose trailing extension component
is a table key (here `pics.png` with `os.path.isdir` true), `get_fileinfo`
sets `ext` and `group` from the table, but the description and icon are
NOT the table lookups under that suffix — line 178 of `common.py` resets
them to the folder defaults because the suffix is not `app`, `bundle` or
`git`. -/
theorem get_fileinfo_table_lookup_cex :
    (py_nameparts (py_split "pics.png").2).getLast? = some "png"
    ∧ py_dict_get sampleTypes.TYPE_GROUPS "png" = some "image"
    ∧ py_dict_get sampleTypes.FILE_EXTS "png"
        = some (some "Portable Network Graphics")
    ∧ (get_fileinfo sampleTypes true "pics.png").ext = some "png"
    ∧ (get_fileinfo sampleTypes true "pics.png").group = "image"
    ∧ (get_fileinfo sampleTypes true "pics.png").desc
        ≠ "Portable Network Graphics"
    ∧ (get_fileinfo sampleTypes true "pics.png").icon
        ≠ (sampleTypes.GROUP_ICONS "image").2 := by
  refine ⟨by decide, by decide, by decide, by decide, by decide, ?_, ?_⟩
  · decide
  · decide

/-- C1 (amended): when the trailing (lowercased) extension component is a
non-empty key of `TYPE_GROUPS`, `get_fileinfo` sets `ext` to it and
`group` to its table entry; for non-directories the icon is the group's
icon and the description is the `FILE_EXTS` entry when present and
non-`None` (falling back to the group or base default); for directories
the description and icon are reset to the folder defaults unless the
suffix is `app`, `bundle` or `git`. -/
theorem get_fileinfo_suffix_dispatch (tbl : FileTypes) (isdir : Bool)
    (path : String) (lp g : String)
    (hlast : (py_nameparts (py_split path).2).getLast? = some lp)
    (hne : lp ≠ "") (hg : py_dict_get tbl.TYPE_GROUPS lp = some g) :
    (get_fileinfo tbl isdir path).ext = some lp
    ∧ (get_fileinfo tbl isdir path).group = g
    ∧ (isdir = false →
        (get_fileinfo tbl isdir path).icon = (tbl.GROUP_ICONS g).2
        ∧ (get_fileinfo tbl isdir path).desc
            = (match py_dict_get tbl.FILE_EXTS lp with
               | some (some d) => d
               | some none => (tbl.GROUP_ICONS "file").1
               | none => (tbl.GROUP_ICONS g).1))
    ∧ (isdir = true → ¬(lp = "app" ∨ lp = "bundle" ∨ lp = "git") →
        (get_fileinfo tbl isdir path).desc = (tbl.GROUP_ICONS "folder").1
        ∧ (get_fileinfo tbl isdir path).icon
            = (tbl.GROUP_ICONS "folder").2) := by
  have hkey : (py_dict_get tbl.TYPE_GROUPS lp).isSome := by
    rw [hg]
    rfl
  have hfold := find_ext_last tbl (py_nameparts (py_split path).2) lp hlast hkey
  cases isdir with
  | false =>
    simp only [get_fileinfo, get_fileinfo_split, fileinfo_fields, hfold, hg,
      if_neg hne, Option.getD_some]
    refine ⟨by simp, by simp, ?_, by simp⟩
    intro _
    cases hfe : py_dict_get tbl.FILE_EXTS lp with
    | none => simp [hfe]
    | some v => cases v <;> simp [hfe]
  | true =>
    simp only [get_fileinfo, get_fileinfo_split, fileinfo_fields, hfold, hg,
      if_neg hne, Option.getD_some]
    refine ⟨by simp, by simp, by simp, ?_⟩
    intro _ htrio
    have hcond : ((if (true : Bool) then "folder" else "file") = "folder"
        ∧ ¬((some lp : Option String) = some "app" ∨ some lp = some "bundle"
            ∨ some lp = some "git")) := by
      simp
      tauto
    simp [hcond, htrio]

/-- Witness for C1 (amended): a regular file `d/photo.png` gets the
image group's icon. -/
theorem get_fileinfo_suffix_dispatch_witness :
    (get_fileinfo sampleTypes false "d/photo.png").ext = some "png"
    ∧ (get_fileinfo sampleTypes false "d/photo.png").icon
        = (sampleTypes.GROUP_ICONS "image").2 := by
  have h := get_fileinfo_suffix_dispatch sampleTypes false "d/photo.png"
    "png" "image" (by decide) (by decide) (by decide)
  exact ⟨h.1, (h.2.2.1 rfl).1⟩

/- ## C5: deleting a favorites row -/

/-- C5: for a valid row, `tableview_delete` removes exactly the entry at
that row — the result is the `take`/`drop` splice around it, one entry
shorter — and persists the updated pair list to the source file. -/
theorem favorites_delete_spec (s : FavoritesDataSource) (files : JsonStore)
    (row : ℕ) (h : row < s.entries.length) :
    FavoritesDataSource.tableview_delete s files row
        = some ({ s with entries := s.entries.eraseIdx row },
            json_write files s.src (s.entries.eraseIdx row),
            [.delete_rows [row]])
      ∧ s.entries.eraseIdx row
          = s.entries.take row ++ s.entries.drop (row + 1)
      ∧ (s.entries.eraseIdx row).length + 1 = s.entries.length
      ∧ json_read (json_write files s.src (s.entries.eraseIdx row)) s.src
          = some (s.entries.eraseIdx row) := by
  refine ⟨?_, List.eraseIdx_eq_take_drop_succ _ _, ?_, ?_⟩
  · simp [FavoritesDataSource.tableview_delete, py_list_del, h,
      List.eraseIdx_eq_take_drop_succ]
  · rw [List.length_eraseIdx, if_pos h]
    omega
  · simp [json_read, json_write, py_dict_get]

/-- Witness for C5: deleting row 1 of a three-entry favorites list. -/
theorem favorites_delete_spec_witness :
    FavoritesDataSource.tableview_delete
        ⟨"/fav.json", [("a", "A"), ("b", "B"), ("c", "C")]⟩ [] 1
      = some (⟨"/fav.json", [("a", "A"), ("c", "C")]⟩,
          [("/fav.json", [("a", "A"), ("c", "C")])],
          [.delete_rows [1]]) :=
  (favorites_delete_spec
    ⟨"/fav.json", [("a", "A"), ("b", "B"), ("c", "C")]⟩ [] 1 (by decide)).1

/- ## C6: moving a favorites row -/

/-- C6: for valid rows, `tableview_move_row` removes the entry at
`from_row` and reinserts it at `to_row`: the new list is a permutation of
the old one of unchanged length, erasing the moved entry again recovers
the original list without it (so the relative order of all other entries
is preserved), and the reordered pair list is persisted to the source
file. -/
theorem favorites_move_row_spec (s : FavoritesDataSource) (files : JsonStore)
    (from_row to_row : ℕ) (hf : from_row < s.entries.length)
    (ht : to_row < s.entries.length) :
    FavoritesDataSource.tableview_move_row s files from_row to_row
        = some ({ s with entries :=
              (py_list_insert (s.entries.eraseIdx from_row) to_row
                (s.entries.getD from_row ("", ""))) },
            json_write files s.src
              (py_list_insert (s.entries.eraseIdx from_row) to_row
                (s.entries.getD from_row ("", ""))))
      ∧ (py_list_insert (s.entries.eraseIdx from_row) to_row
            (s.entries.getD from_row ("", ""))).Perm s.entries
      ∧ (py_list_insert (s.entries.eraseIdx from_row) to_row
            (s.entries.getD from_row ("", ""))).length = s.entries.length
      ∧ (py_list_insert (s.entries.eraseIdx from_row) to_row
            (s.entries.getD from_row ("", ""))).eraseIdx to_row
          = s.entries.eraseIdx from_row
      ∧ json_read
            (json_write files s.src
              (py_list_insert (s.entries.eraseIdx from_row) to_row
                (s.entries.getD from_row ("", "")))) s.src
          = some (py_list_insert (s.entries.eraseIdx from_row) to_row
              (s.entries.getD from_row ("", ""))) := by
  have hperm : (py_list_insert (s.entries.eraseIdx from_row) to_row
      (s.entries.getD from_row ("", ""))).Perm s.entries :=
    (py_list_insert_perm _ _ _).trans
      (cons_eraseIdx_perm s.entries from_row hf ("", ""))
  have hrest : to_row ≤ (s.entries.eraseIdx from_row).length := by
    rw [List.length_eraseIdx, if_pos hf]
    omega
  refine ⟨?_, hperm, hperm.length_eq, py_list_insert_eraseIdx _ _ _ hrest, ?_⟩
  · simp [FavoritesDataSource.tableview_move_row, py_list_pop,
      List.getElem?_eq_getElem hf, List.getD_eq_getElem s.entries ("", "") hf,
      List.eraseIdx_eq_take_drop_succ]
  · simp [json_read, json_write, py_dict_get]

/-- Witness for C6: moving row 0 of a three-entry favorites list to
row 2. -/
theorem favorites_move_row_spec_witness :
    FavoritesDataSource.tableview_move_row
        ⟨"/fav.json", [("a", "A"), ("b", "B"), ("c", "C")]⟩ [] 0 2
      = some (⟨"/fav.json", [("b", "B"), ("c", "C"), ("a", "A")]⟩,
          [("/fav.json", [("b", "B"), ("c", "C"), ("a", "A")])])
    ∧ ([("b", "B"), ("c", "C"), ("a", "A")] : List (String × String)).Perm
        [("a", "A"), ("b", "B"), ("c", "C")] := by
  have h := favorites_move_row_spec
    ⟨"/fav.json", [("a", "A"), ("b", "B"), ("c", "C")]⟩ [] 0 2
    (by decide) (by decide)
  exact ⟨h.1, h.2.1⟩

/- ## C10: the directory listing partitions the contents -/

/-- C10: after `FileDataSource.reload`, `folders` and `files` are the
`isdir`/non-`isdir` filters of the converted contents — order-preserving
sublists whose concatenation permutes the whole converted list — and the
row counts of the two sections add up to the number of contents entries. -/
theorem fds_reload_partition (fs : FS) (tbl : FileTypes) (fi : FileItem)
    (l : List String) (h : fi.contents = some l) :
    (FileDataSource.reload fs tbl fi).folders
        = (l.map (fun name => FileItem.new fs tbl (.str (py_join fi.path name)))).filter
            (fun x => x.isdir)
      ∧ (FileDataSource.reload fs tbl fi).files
        = (l.map (fun name => FileItem.new fs tbl (.str (py_join fi.path name)))).filter
            (fun x => !x.isdir)
      ∧ ((FileDataSource.reload fs tbl fi).folders
            ++ (FileDataSource.reload fs tbl fi).files).Perm
          (l.map (fun name => FileItem.new fs tbl (.str (py_join fi.path name))))
      ∧ (FileDataSource.reload fs tbl fi).folders.Sublist
          (l.map (fun name => FileItem.new fs tbl (.str (py_join fi.path name))))
      ∧ (FileDataSource.reload fs tbl fi).files.Sublist
          (l.map (fun name => FileItem.new fs tbl (.str (py_join fi.path name))))
      ∧ (FileDataSource.reload fs tbl fi).tableview_number_of_rows 0
            + (FileDataSource.reload fs tbl fi).tableview_number_of_rows 1
          = l.length := by
  have hc : fi.contents.getD [] = l := by rw [h]; rfl
  have hlen :=
    (List.filter_append_perm (fun x : FileItem => x.isdir)
      (l.map (fun name => FileItem.new fs tbl (.str (py_join fi.path name))))).length_eq
  rw [List.length_append] at hlen
  refine ⟨?_, ?_, ?_, ?_, ?_, ?_⟩
  · simp [FileDataSource.reload, hc]
  · simp [FileDataSource.reload, hc]
  · simp only [FileDataSource.reload, hc]
    exact List.filter_append_perm _ _
  · simp only [FileDataSource.reload, hc]
    exact List.filter_sublist _
  · simp only [FileDataSource.reload, hc]
    exact List.filter_sublist _
  · simp only [FileDataSource.tableview_number_of_rows, FileDataSource.lists,
      FileDataSource.reload, hc, List.getD]
    simpa using hlen

/-- Witness for C10: the listing of `/r` (one subdirectory, one file)
yields two rows in total. -/
theorem fds_reload_partition_witness :
    (FileDataSource.reload fs_tree sampleTypes
        (FileItem.reload fs_tree sampleTypes "/r")).tableview_number_of_rows 0
      + (FileDataSource.reload fs_tree sampleTypes
          (FileItem.reload fs_tree sampleTypes "/r")).tableview_number_of_rows 1
      = 2 :=
  (fds_reload_partition fs_tree sampleTypes
    (FileItem.reload fs_tree sampleTypes "/r") ["d1", "f1.png"]
    (by decide)).2.2.2.2.2
